import Mathlib

/-!
Shallow embedding, over exact rationals, of the collision-side core of the
habitat-sim asset pipeline:
  - src/esp/physics/bullet/BulletRigidScene.cpp (construction of the static
    Bullet collision representation from a MeshTransformNode hierarchy,
    friction/restitution accessors, AABB union, teardown), and
  - src/esp/assets/ResourceManager.h (the CHECKed collision-mesh and
    mesh-metadata lookups).
Magnum float/double scalars are modelled as ℚ.  Magnum::Matrix4 values are
affine transforms (the code only ever builds and composes affine transforms),
modelled as a 3x3 linear part (column-major, like Magnum) plus a translation
column.  The external Bullet calls (btCollisionShape::getAabb,
addCollisionObject / removeCollisionObject on the dynamics world) are modelled
as an oracle parameter and as list operations on a world state.
-/

namespace HabitatSim

/-- Magnum::Vector3 with exact rational scalars. -/
structure Vec3 where
  x : ℚ
  y : ℚ
  z : ℚ
deriving DecidableEq, Repr

/-- Componentwise addition. -/
def Vec3.add (a b : Vec3) : Vec3 := ⟨a.x + b.x, a.y + b.y, a.z + b.z⟩

/-- Scalar multiple. -/
def Vec3.smul (s : ℚ) (v : Vec3) : Vec3 := ⟨s * v.x, s * v.y, s * v.z⟩

/-- Componentwise minimum (Magnum::Math::min). -/
def Vec3.minV (a b : Vec3) : Vec3 := ⟨min a.x b.x, min a.y b.y, min a.z b.z⟩

/-- Componentwise maximum (Magnum::Math::max). -/
def Vec3.maxV (a b : Vec3) : Vec3 := ⟨max a.x b.x, max a.y b.y, max a.z b.z⟩

/-- Squared euclidean length (Magnum Vector::dot of a vector with itself). -/
def Vec3.len2 (v : Vec3) : ℚ := v.x * v.x + v.y * v.y + v.z * v.z

/-- Euclidean length of a vector (Magnum Vector3::length).  Exact on all the
inputs the decomposition lemmas use (squares of rationals), via Rat.sqrt. -/
def Vec3.length (v : Vec3) : ℚ := Rat.sqrt v.len2

/-- Column-major 3x3 matrix: the rotation-scaling block of a Magnum::Matrix4. -/
structure Mat3 where
  c0 : Vec3
  c1 : Vec3
  c2 : Vec3
deriving DecidableEq, Repr

/-- Matrix-vector product (columns weighted by the vector's components). -/
def Mat3.mulVec (A : Mat3) (v : Vec3) : Vec3 :=
  Vec3.add (Vec3.smul v.x A.c0) (Vec3.add (Vec3.smul v.y A.c1) (Vec3.smul v.z A.c2))

/-- Matrix product, columnwise. -/
def Mat3.mul (A B : Mat3) : Mat3 := ⟨A.mulVec B.c0, A.mulVec B.c1, A.mulVec B.c2⟩

/-- Identity 3x3 matrix. -/
def Mat3.identityM : Mat3 := ⟨⟨1, 0, 0⟩, ⟨0, 1, 0⟩, ⟨0, 0, 1⟩⟩

/-- Magnum::Matrix4 restricted to affine transforms (bottom row 0 0 0 1):
a linear 3x3 block and a translation column. -/
structure Mat4 where
  linear : Mat3
  trans : Vec3
deriving DecidableEq, Repr

/-- Composition of affine transforms, as Magnum::Matrix4 multiplication acts
on affine matrices. -/
def Mat4.mul (A B : Mat4) : Mat4 :=
  ⟨A.linear.mul B.linear, Vec3.add (A.linear.mulVec B.trans) A.trans⟩

/-- Default-constructed Magnum::Matrix4, i.e. the identity transform. -/
def Mat4.identityM : Mat4 := ⟨Mat3.identityM, ⟨0, 0, 0⟩⟩

/-- Magnum Matrix4::scaling(): the euclidean lengths of the three linear
basis columns. -/
def Mat4.scaling (M : Mat4) : Vec3 :=
  ⟨M.linear.c0.length, M.linear.c1.length, M.linear.c2.length⟩

/-- Magnum Matrix4::rotation(): the linear block with each column divided by
its length (normalized basis columns). -/
def Mat4.rotation (M : Mat4) : Mat3 :=
  ⟨Vec3.smul (1 / M.linear.c0.length) M.linear.c0,
   Vec3.smul (1 / M.linear.c1.length) M.linear.c1,
   Vec3.smul (1 / M.linear.c2.length) M.linear.c2⟩

/-- Magnum Matrix4::translation(): the translation column. -/
def Mat4.translation (M : Mat4) : Vec3 := M.trans

/-- Magnum::Range3D: an axis-aligned box given by min and max corners. -/
structure Range3D where
  minC : Vec3
  maxC : Vec3
deriving DecidableEq, Repr

/-- Default-constructed Magnum::Range3D{}: both corners at the origin. -/
def Range3D.defaultRange : Range3D := ⟨⟨0, 0, 0⟩, ⟨0, 0, 0⟩⟩

/-- Magnum::Math::join of two ranges: componentwise min of minima and max of
maxima. -/
def Range3D.join (a b : Range3D) : Range3D :=
  ⟨Vec3.minV a.minC b.minC, Vec3.maxV a.maxC b.maxC⟩

/-- esp::assets::CollisionMeshData: vertex positions and triangle indices
(views into the shared mesh buffers; modelled by value, sharing is by
list equality of the referenced data). -/
structure CollisionMeshData where
  positions : List Vec3
  indices : List Nat
deriving DecidableEq, Repr

instance : Inhabited CollisionMeshData := ⟨⟨[], []⟩⟩

/-- esp core sentinel for an undefined ID. -/
def ID_UNDEFINED : Int := -1

/-- esp::assets::MeshTransformNode: local-to-parent transform, optional local
mesh index (ID_UNDEFINED when the node carries no mesh), children. -/
inductive MeshTransformNode where
  | mk (transformFromLocalToParent : Mat4) (meshIDLocal : Int)
      (children : List MeshTransformNode)

/-- Local-to-parent transform of a node. -/
def MeshTransformNode.transformFromLocalToParent : MeshTransformNode → Mat4
  | .mk t _ _ => t

/-- Local mesh index of a node. -/
def MeshTransformNode.meshIDLocal : MeshTransformNode → Int
  | .mk _ m _ => m

/-- Children of a node. -/
def MeshTransformNode.children : MeshTransformNode → List MeshTransformNode
  | .mk _ _ cs => cs

/-- Bullet PHY scalar type tags used by btIndexedMesh. -/
inductive PHYScalarType where
  | PHY_FLOAT
  | PHY_INTEGER
  | PHY_SHORT
  | PHY_UCHAR
deriving DecidableEq, Repr

/-- btIndexedMesh as configured by constructBulletSceneFromMeshes: the index
and vertex base pointers are modelled as the referenced lists themselves
(zero-copy: the same lists as the CollisionMeshData views). -/
structure btIndexedMesh where
  m_numTriangles : Nat
  m_triangleIndexBase : List Nat
  m_triangleIndexStride : Nat
  m_numVertices : Nat
  m_vertexBase : List Vec3
  m_vertexStride : Nat
  m_indexType : PHYScalarType
  m_vertexType : PHYScalarType
deriving DecidableEq, Repr

/-- btTriangleIndexVertexArray: the list of indexed meshes added to it. -/
structure btTriangleIndexVertexArray where
  indexedMeshes : List btIndexedMesh
deriving DecidableEq, Repr

/-- btBvhTriangleMeshShape as configured by the collision builder: the
referenced vertex array, the quantized-compression constructor flag, the
margin set by setMargin, and the local scaling set by setLocalScaling. -/
structure btBvhTriangleMeshShape where
  meshInterface : btTriangleIndexVertexArray
  useQuantizedAabbCompression : Bool
  margin : ℚ
  localScaling : Vec3
deriving DecidableEq, Repr

/-- btTransform: a rotation basis and a translation origin. -/
structure btTransformT where
  basis : Mat3
  origin : Vec3
deriving DecidableEq, Repr

/-- btCollisionObject as used by BulletRigidScene: its shape, its world
placement, and the friction / restitution coefficients. -/
structure btCollisionObject where
  collisionShape : btBvhTriangleMeshShape
  worldTransform : btTransformT
  friction : ℚ
  restitution : ℚ
deriving DecidableEq, Repr

/-- Member state of a BulletRigidScene: the three append-only arrays filled
by constructBulletSceneFromMeshes. -/
structure BulletRigidSceneState where
  bSceneArrays_ : List btTriangleIndexVertexArray
  bSceneShapes_ : List btBvhTriangleMeshShape
  bStaticCollisionObjects_ : List btCollisionObject
deriving DecidableEq, Repr

/-- Fresh BulletRigidScene member state (all arrays empty). -/
def BulletRigidSceneState.empty : BulletRigidSceneState := ⟨[], [], []⟩

/-- Lines 62-81 of BulletRigidScene.cpp: configure a btIndexedMesh from one
CollisionMeshData (triangle count, strides, scalar types, zero-copy bases). -/
def mkBulletMesh (mesh : CollisionMeshData) : btIndexedMesh :=
  { m_numTriangles := mesh.indices.length / 3
    m_triangleIndexBase := mesh.indices
    m_triangleIndexStride := 3 * 4
    m_numVertices := mesh.positions.length
    m_vertexBase := mesh.positions
    m_vertexStride := 12
    m_indexType := PHYScalarType.PHY_INTEGER
    m_vertexType := PHYScalarType.PHY_FLOAT }

/-- Fresh btTriangleIndexVertexArray after addIndexedMesh of one mesh. -/
def mkIndexedVertexArray (m : btIndexedMesh) : btTriangleIndexVertexArray :=
  ⟨[m]⟩

/-- Lines 86-95: the btBvhTriangleMeshShape built for a node, with margin
0.04 and local scaling taken from the accumulated world transform. -/
def mkMeshShape (arr : btTriangleIndexVertexArray) (W : Mat4) :
    btBvhTriangleMeshShape :=
  { meshInterface := arr
    useQuantizedAabbCompression := true
    margin := 4 / 100
    localScaling := W.scaling }

/-- Lines 96-102: the btCollisionObject for a node, placed from only the
rotation and translation of the accumulated world transform. -/
def mkCollisionObject (shape : btBvhTriangleMeshShape) (W : Mat4) :
    btCollisionObject :=
  { collisionShape := shape
    worldTransform := ⟨W.rotation, W.translation⟩
    friction := 1 / 2
    restitution := 0 }

/-- One defined-mesh step of constructBulletSceneFromMeshes: build the
indexed mesh, vertex array, shape and object for world transform W and
emplace them at the back of the three arrays. -/
def emplaceNodeCollision (W : Mat4) (mesh : CollisionMeshData)
    (st : BulletRigidSceneState) : BulletRigidSceneState :=
  let bulletMesh := mkBulletMesh mesh
  let indexedVertexArray := mkIndexedVertexArray bulletMesh
  let meshShape := mkMeshShape indexedVertexArray W
  let sceneCollisionObject := mkCollisionObject meshShape W
  { bSceneArrays_ := st.bSceneArrays_ ++ [indexedVertexArray]
    bSceneShapes_ := st.bSceneShapes_ ++ [meshShape]
    bStaticCollisionObjects_ :=
      st.bStaticCollisionObjects_ ++ [sceneCollisionObject] }

mutual

/-- BulletRigidScene::constructBulletSceneFromMeshes (lines 52-112): compose
the accumulated transform with the node's local transform, emplace one
collision shape and object when the node has a defined local mesh, then
recurse into the children with the accumulated transform. -/
def constructBulletSceneFromMeshes (transformFromParentToWorld : Mat4)
    (meshGroup : List CollisionMeshData) :
    MeshTransformNode → BulletRigidSceneState → BulletRigidSceneState
  | .mk tl mid children, st =>
    let transformFromLocalToWorld := Mat4.mul transformFromParentToWorld tl
    let st1 :=
      if mid ≠ ID_UNDEFINED then
        emplaceNodeCollision transformFromLocalToWorld
          (meshGroup.getD mid.toNat default) st
      else st
    constructChildrenFromMeshes transformFromLocalToWorld meshGroup children st1

/-- Left-to-right recursion over a node's children (the range-for loop at
lines 109-111). -/
def constructChildrenFromMeshes (transformFromLocalToWorld : Mat4)
    (meshGroup : List CollisionMeshData) :
    List MeshTransformNode → BulletRigidSceneState → BulletRigidSceneState
  | [], st => st
  | c :: cs, st =>
    constructChildrenFromMeshes transformFromLocalToWorld meshGroup cs
      (constructBulletSceneFromMeshes transformFromLocalToWorld meshGroup c st)

end

mutual

/-- Specification-side characterization of the collision objects created for
one node: with accumulated transform W = parent-to-world composed with the
node's local transform, one object placed from W when the node's mesh is
defined, followed by the children's objects accumulated under W.  Used to
state that the implementation's state threading realizes exactly this
parent-to-child product accumulation, with the identity as the base case. -/
def collisionObjectsSpec (transformFromParentToWorld : Mat4)
    (meshGroup : List CollisionMeshData) :
    MeshTransformNode → List btCollisionObject
  | .mk tl mid children =>
    let W := Mat4.mul transformFromParentToWorld tl
    (if mid ≠ ID_UNDEFINED then
        [mkCollisionObject
          (mkMeshShape
            (mkIndexedVertexArray (mkBulletMesh (meshGroup.getD mid.toNat default)))
            W) W]
      else []) ++ collisionObjectsSpecList W meshGroup children

/-- Children's collision objects, concatenated in order. -/
def collisionObjectsSpecList (W : Mat4) (meshGroup : List CollisionMeshData) :
    List MeshTransformNode → List btCollisionObject
  | [] => []
  | c :: cs =>
    collisionObjectsSpec W meshGroup c ++ collisionObjectsSpecList W meshGroup cs

end

mutual

/-- Number of nodes in a tree whose local mesh index is defined. -/
def definedMeshCount : MeshTransformNode → Nat
  | .mk _ mid children =>
    (if mid ≠ ID_UNDEFINED then 1 else 0) + definedMeshCountList children

/-- Number of defined-mesh nodes in a forest. -/
def definedMeshCountList : List MeshTransformNode → Nat
  | [] => 0
  | c :: cs => definedMeshCount c + definedMeshCountList cs

end

/-- BulletRigidScene::setFrictionCoefficient (lines 114-119): set the friction
of every static collision object. -/
def setFrictionCoefficient (frictionCoefficient : ℚ)
    (objs : List btCollisionObject) : List btCollisionObject :=
  objs.map fun o => { o with friction := frictionCoefficient }

/-- BulletRigidScene::setRestitutionCoefficient (lines 121-126): set the
restitution of every static collision object. -/
def setRestitutionCoefficient (restitutionCoefficient : ℚ)
    (objs : List btCollisionObject) : List btCollisionObject :=
  objs.map fun o => { o with restitution := restitutionCoefficient }

/-- BulletRigidScene::getFrictionCoefficient (lines 128-135): 0.0 when there
are no collision objects, otherwise the friction of the last one
(bStaticCollisionObjects_.back()). -/
def getFrictionCoefficient (objs : List btCollisionObject) : ℚ :=
  if objs.length = 0 then 0
  else
    match objs.getLast? with
    | some o => o.friction
    | none => 0

/-- BulletRigidScene::getRestitutionCoefficient (lines 137-144): 0.0 when
there are no collision objects, otherwise the restitution of the last one. -/
def getRestitutionCoefficient (objs : List btCollisionObject) : ℚ :=
  if objs.length = 0 then 0
  else
    match objs.getLast? with
    | some o => o.restitution
    | none => 0

/-- BulletRigidScene::getCollisionShapeAabb (lines 146-164): fold over the
static collision objects; each object's box comes from the external Bullet
call shape->getAabb(worldTransform), modelled by the oracle aabbQuery; an
empty (default-constructed) running range is overridden by the next box,
otherwise the boxes are joined. -/
def getCollisionShapeAabb (aabbQuery : btCollisionObject → Range3D)
    (objs : List btCollisionObject) : Range3D :=
  objs.foldl
    (fun combinedAABB o =>
      let box := aabbQuery o
      if combinedAABB = Range3D.defaultRange then box
      else combinedAABB.join box)
    Range3D.defaultRange

/-- State of the externally owned btMultiBodyDynamicsWorld: the collision
objects currently registered with it, in registration order. -/
structure BulletWorld where
  collisionObjects : List btCollisionObject
deriving DecidableEq, Repr

/-- btMultiBodyDynamicsWorld::addCollisionObject: register one object. -/
def BulletWorld.addCollisionObject (w : BulletWorld) (o : btCollisionObject) :
    BulletWorld :=
  ⟨w.collisionObjects ++ [o]⟩

/-- btMultiBodyDynamicsWorld::removeCollisionObject: unregister one object
(the first registered entry equal to it). -/
def BulletWorld.removeCollisionObject (w : BulletWorld)
    (o : btCollisionObject) : BulletWorld :=
  ⟨w.collisionObjects.erase o⟩

/-- BulletRigidScene::~BulletRigidScene (lines 23-28): remove every static
collision object of this scene from the world. -/
def bulletRigidSceneDestructor (objs : List btCollisionObject)
    (w : BulletWorld) : BulletWorld :=
  objs.foldl BulletWorld.removeCollisionObject w

/-- esp::assets::MeshMetaData as used by the collision builder: the root of
the component transform hierarchy (the index-range fields of the full type
are not consumed by this code). -/
structure MeshMetaData where
  root : MeshTransformNode

/-- Per-asset record in ResourceManager::resourceDict_. -/
structure LoadedAssetData where
  meshMetaData : MeshMetaData

/-- Fatal CHECK failure: the CHECK macro aborts the operation. -/
inductive FatalCheck where
  | checkFailed
deriving DecidableEq, Repr

/-- ResourceManager state as consumed by BulletRigidScene: the collision mesh
groups and the resource dictionary, as key-value lists with unique keys. -/
structure ResourceManager where
  collisionMeshGroups_ : List (String × List CollisionMeshData)
  resourceDict_ : List (String × LoadedAssetData)

/-- ResourceManager::getCollisionMesh (ResourceManager.h lines 200-204):
CHECK that the key is present (abort otherwise), then return the stored
entry. -/
def getCollisionMesh (rm : ResourceManager) (collisionAssetHandle : String) :
    Except FatalCheck (List CollisionMeshData) :=
  match rm.collisionMeshGroups_.lookup collisionAssetHandle with
  | some group => Except.ok group
  | none => Except.error FatalCheck.checkFailed

/-- ResourceManager::getMeshMetaData (ResourceManager.h lines 258-261):
CHECK that the key is present (abort otherwise), then return the stored
entry's meshMetaData. -/
def getMeshMetaData (rm : ResourceManager) (metaDataName : String) :
    Except FatalCheck MeshMetaData :=
  match rm.resourceDict_.lookup metaDataName with
  | some entry => Except.ok entry.meshMetaData
  | none => Except.error FatalCheck.checkFailed

/-- Values read from initializationAttributes_. -/
structure InitializationAttributes where
  collisionAssetHandle : String
  frictionCoefficient : ℚ
  restitutionCoefficient : ℚ

/-- BulletRigidScene::initialization_LibSpecific (lines 29-50): look up the
collision mesh group and metadata (CHECKed, may abort), construct the Bullet
scene from the hierarchy root under the identity transform, then set each
object's friction and restitution from the attributes and register it with
the world; returns true. -/
def initialization_LibSpecific (attrs : InitializationAttributes)
    (resMgr : ResourceManager) (st : BulletRigidSceneState) (w : BulletWorld) :
    Except FatalCheck (BulletRigidSceneState × BulletWorld × Bool) := do
  let meshGroup ← getCollisionMesh resMgr attrs.collisionAssetHandle
  let metaData ← getMeshMetaData resMgr attrs.collisionAssetHandle
  let st1 := constructBulletSceneFromMeshes Mat4.identityM meshGroup
    metaData.root st
  let objs := st1.bStaticCollisionObjects_.map fun o =>
    { o with friction := attrs.frictionCoefficient
             restitution := attrs.restitutionCoefficient }
  let w1 := objs.foldl BulletWorld.addCollisionObject w
  pure ({ st1 with bStaticCollisionObjects_ := objs }, w1, true)

/-! Helper lemmas shared by the claim theorems. -/

/-- Left identity of affine transform composition. -/
theorem Mat4.identity_mul (T : Mat4) : Mat4.mul Mat4.identityM T = T := by
  obtain ⟨⟨⟨a0, a1, a2⟩, ⟨b0, b1, b2⟩, ⟨c0, c1, c2⟩⟩, ⟨t0, t1, t2⟩⟩ := T
  simp [Mat4.mul, Mat4.identityM, Mat3.mul, Mat3.identityM, Mat3.mulVec,
    Vec3.add, Vec3.smul]

mutual

/-- Refinement of the construction: running the builder appends exactly the
specification-side arrays, shapes and objects (each shape's vertex array and
each object's shape recoverable from the object record) to the incoming
state. -/
theorem constructBulletSceneFromMeshes_eq (P : Mat4)
    (mg : List CollisionMeshData) (n : MeshTransformNode)
    (st : BulletRigidSceneState) :
    constructBulletSceneFromMeshes P mg n st =
      { bSceneArrays_ := st.bSceneArrays_ ++
          (collisionObjectsSpec P mg n).map fun o =>
            o.collisionShape.meshInterface
        bSceneShapes_ := st.bSceneShapes_ ++
          (collisionObjectsSpec P mg n).map fun o => o.collisionShape
        bStaticCollisionObjects_ :=
          st.bStaticCollisionObjects_ ++ collisionObjectsSpec P mg n } := by
  match n with
  | .mk tl mid children =>
    rw [constructBulletSceneFromMeshes, collisionObjectsSpec]
    by_cases hm : mid ≠ ID_UNDEFINED
    · simp only [if_pos hm, constructChildrenFromMeshes_eq, emplaceNodeCollision,
        mkCollisionObject, mkMeshShape, List.map_append, List.map_cons,
        List.map_nil, List.append_assoc, List.cons_append, List.nil_append]
    · simp only [if_neg hm, constructChildrenFromMeshes_eq, List.map_append,
        List.map_nil, List.append_assoc, List.nil_append]

/-- Refinement of the children loop. -/
theorem constructChildrenFromMeshes_eq (W : Mat4)
    (mg : List CollisionMeshData) (cs : List MeshTransformNode)
    (st : BulletRigidSceneState) :
    constructChildrenFromMeshes W mg cs st =
      { bSceneArrays_ := st.bSceneArrays_ ++
          (collisionObjectsSpecList W mg cs).map fun o =>
            o.collisionShape.meshInterface
        bSceneShapes_ := st.bSceneShapes_ ++
          (collisionObjectsSpecList W mg cs).map fun o => o.collisionShape
        bStaticCollisionObjects_ :=
          st.bStaticCollisionObjects_ ++ collisionObjectsSpecList W mg cs } := by
  match cs with
  | [] =>
    rw [constructChildrenFromMeshes, collisionObjectsSpecList]
    simp
  | c :: rest =>
    rw [constructChildrenFromMeshes, collisionObjectsSpecList,
      constructChildrenFromMeshes_eq, constructBulletSceneFromMeshes_eq]
    simp [List.append_assoc]

end

mutual

/-- The specification-side object list has one entry per defined-mesh node. -/
theorem collisionObjectsSpec_length (P : Mat4) (mg : List CollisionMeshData)
    (n : MeshTransformNode) :
    (collisionObjectsSpec P mg n).length = definedMeshCount n := by
  match n with
  | .mk tl mid children =>
    rw [collisionObjectsSpec, definedMeshCount]
    by_cases hm : mid ≠ ID_UNDEFINED
    · simp [hm, collisionObjectsSpecList_length]; omega
    · simp [hm, collisionObjectsSpecList_length]

/-- Forest version of collisionObjectsSpec_length. -/
theorem collisionObjectsSpecList_length (W : Mat4)
    (mg : List CollisionMeshData) (cs : List MeshTransformNode) :
    (collisionObjectsSpecList W mg cs).length = definedMeshCountList cs := by
  match cs with
  | [] => rw [collisionObjectsSpecList, definedMeshCountList]; rfl
  | c :: rest =>
    rw [collisionObjectsSpecList, definedMeshCountList]
    simp [collisionObjectsSpec_length, collisionObjectsSpecList_length]

end

/-- Registering a list of objects appends them, in order, to the world. -/
theorem foldl_addCollisionObject (objs : List btCollisionObject)
    (w : BulletWorld) :
    (objs.foldl BulletWorld.addCollisionObject w).collisionObjects =
      w.collisionObjects ++ objs := by
  induction objs generalizing w with
  | nil => simp
  | cons o os ih => simp [BulletWorld.addCollisionObject, ih]

/-- Characterization of a successful initialization_LibSpecific run: the
returned flag is true, the final member objects are the constructed ones with
friction and restitution overwritten from the attributes, and the world gains
exactly those objects, appended once each in order. -/
theorem initialization_LibSpecific_ok {attrs : InitializationAttributes}
    {rm : ResourceManager} {st : BulletRigidSceneState} {w : BulletWorld}
    {out : BulletRigidSceneState × BulletWorld × Bool}
    (h : initialization_LibSpecific attrs rm st w = Except.ok out) :
    out.2.2 = true ∧
      out.2.1.collisionObjects =
        w.collisionObjects ++ out.1.bStaticCollisionObjects_ := by
  rw [initialization_LibSpecific] at h
  cases hg : getCollisionMesh rm attrs.collisionAssetHandle with
  | error e => rw [hg] at h; simp [Bind.bind, Except.bind] at h
  | ok mgv =>
    rw [hg] at h
    cases hmeta : getMeshMetaData rm attrs.collisionAssetHandle with
    | error e => rw [hmeta] at h; simp [Bind.bind, Except.bind] at h
    | ok md =>
      rw [hmeta] at h
      simp only [Bind.bind, Except.bind, pure, Except.pure, Except.ok.injEq] at h
      subst h
      simp [foldl_addCollisionObject]

/-- Concrete triangle mesh reused by the claim witnesses. -/
def sampleMesh : CollisionMeshData :=
  ⟨[⟨0, 0, 0⟩, ⟨1, 0, 0⟩, ⟨0, 1, 0⟩], [0, 1, 2]⟩

/-- Concrete collision object reused by the claim witnesses. -/
def sampleObject : btCollisionObject :=
  { collisionShape :=
      { meshInterface := ⟨[mkBulletMesh sampleMesh]⟩
        useQuantizedAabbCompression := true
        margin := 1
        localScaling := ⟨1, 1, 1⟩ }
    worldTransform := ⟨Mat3.identityM, ⟨0, 0, 0⟩⟩
    friction := 2
    restitution := 0 }

/-! Claim theorems. -/

/-- C1: the collision builder accumulates the world transform of each node as
(parent-to-world transform) * (node's transformFromLocalToParent), with the
identity as the base case at the root.  First conjunct: the objects appended
by the builder are exactly the specification-side accumulation of that
product.  Second conjunct: for a two-level hierarchy with root local
transform T1 and child local transform T2, built from the identity, the root
object is derived from T1 and the child object from T1 composed with T2. -/
theorem constructBulletScene_accumulates_world_transforms :
    (∀ (P : Mat4) (mg : List CollisionMeshData) (n : MeshTransformNode)
        (st : BulletRigidSceneState),
        (constructBulletSceneFromMeshes P mg n st).bStaticCollisionObjects_ =
          st.bStaticCollisionObjects_ ++ collisionObjectsSpec P mg n) ∧
    (∀ (T1 T2 : Mat4) (m1 m2 : Int) (mg : List CollisionMeshData),
        m1 ≠ ID_UNDEFINED → m2 ≠ ID_UNDEFINED →
        (constructBulletSceneFromMeshes Mat4.identityM mg
            (.mk T1 m1 [.mk T2 m2 []])
            BulletRigidSceneState.empty).bStaticCollisionObjects_ =
          [mkCollisionObject (mkMeshShape (mkIndexedVertexArray
              (mkBulletMesh (mg.getD m1.toNat default))) T1) T1,
           mkCollisionObject (mkMeshShape (mkIndexedVertexArray
              (mkBulletMesh (mg.getD m2.toNat default))) (Mat4.mul T1 T2))
              (Mat4.mul T1 T2)]) := by
  constructor
  · intro P mg n st
    rw [constructBulletSceneFromMeshes_eq]
  · intro T1 T2 m1 m2 mg h1 h2
    rw [constructBulletSceneFromMeshes_eq]
    simp [collisionObjectsSpec, collisionObjectsSpecList, h1, h2,
      Mat4.identity_mul, BulletRigidSceneState.empty]

/-- Witness for C1: the two-level conjunct applied at T1 = translation by
(1,2,3), T2 = uniform scale 2 then translation by (4,5,6). -/
theorem constructBulletScene_accumulates_world_transforms_witness :
    ((0 : Int) ≠ ID_UNDEFINED) ∧
      (constructBulletSceneFromMeshes Mat4.identityM [sampleMesh]
          (.mk ⟨Mat3.identityM, ⟨1, 2, 3⟩⟩ 0
            [.mk ⟨⟨⟨2, 0, 0⟩, ⟨0, 2, 0⟩, ⟨0, 0, 2⟩⟩, ⟨4, 5, 6⟩⟩ 0 []])
          BulletRigidSceneState.empty).bStaticCollisionObjects_ =
        [mkCollisionObject (mkMeshShape (mkIndexedVertexArray
            (mkBulletMesh ([sampleMesh].getD (0 : Int).toNat default)))
            ⟨Mat3.identityM, ⟨1, 2, 3⟩⟩) ⟨Mat3.identityM, ⟨1, 2, 3⟩⟩,
         mkCollisionObject (mkMeshShape (mkIndexedVertexArray
            (mkBulletMesh ([sampleMesh].getD (0 : Int).toNat default)))
            (Mat4.mul ⟨Mat3.identityM, ⟨1, 2, 3⟩⟩
              ⟨⟨⟨2, 0, 0⟩, ⟨0, 2, 0⟩, ⟨0, 0, 2⟩⟩, ⟨4, 5, 6⟩⟩))
            (Mat4.mul ⟨Mat3.identityM, ⟨1, 2, 3⟩⟩
              ⟨⟨⟨2, 0, 0⟩, ⟨0, 2, 0⟩, ⟨0, 0, 2⟩⟩, ⟨4, 5, 6⟩⟩)] :=
  ⟨by decide,
    constructBulletScene_accumulates_world_transforms.2
      ⟨Mat3.identityM, ⟨1, 2, 3⟩⟩ ⟨⟨⟨2, 0, 0⟩, ⟨0, 2, 0⟩, ⟨0, 0, 2⟩⟩, ⟨4, 5, 6⟩⟩
      0 0 [sampleMesh] (by decide) (by decide)⟩

/-- C5: exactly one concave triangle-mesh shape (and one collision object) is
created per node whose local mesh index is defined; a node with an undefined
mesh index produces no shape, but its transform is still composed into its
descendants; and initialization registers each created collision object with
the physics world exactly once (each appended once, in order). -/
theorem one_collision_shape_per_defined_mesh_node :
    (∀ (P : Mat4) (mg : List CollisionMeshData) (n : MeshTransformNode)
        (st : BulletRigidSceneState),
        (constructBulletSceneFromMeshes P mg n st).bSceneShapes_.length =
            st.bSceneShapes_.length + definedMeshCount n ∧
          (constructBulletSceneFromMeshes P mg n
              st).bStaticCollisionObjects_.length =
            st.bStaticCollisionObjects_.length + definedMeshCount n) ∧
    (∀ (P tl : Mat4) (mg : List CollisionMeshData)
        (cs : List MeshTransformNode) (st : BulletRigidSceneState),
        constructBulletSceneFromMeshes P mg (.mk tl ID_UNDEFINED cs) st =
          constructChildrenFromMeshes (Mat4.mul P tl) mg cs st) ∧
    (∀ (attrs : InitializationAttributes) (rm : ResourceManager)
        (st : BulletRigidSceneState) (w : BulletWorld)
        (out : BulletRigidSceneState × BulletWorld × Bool),
        initialization_LibSpecific attrs rm st w = Except.ok out →
        out.2.1.collisionObjects =
          w.collisionObjects ++ out.1.bStaticCollisionObjects_) := by
  refine ⟨fun P mg n st => ?_, fun P tl mg cs st => ?_,
    fun attrs rm st w out h => (initialization_LibSpecific_ok h).2⟩
  · rw [constructBulletSceneFromMeshes_eq]
    simp [collisionObjectsSpec_length]
  · rw [constructBulletSceneFromMeshes]
    simp

/-- Witness for C5: a successful initialization run on a concrete resource
manager; the world ends with exactly the scene's objects appended once. -/
theorem one_collision_shape_per_defined_mesh_node_witness :
    initialization_LibSpecific ⟨"a", 7 / 10, 1 / 10⟩
        ⟨[("a", [sampleMesh])],
          [("a", ⟨⟨.mk Mat4.identityM ID_UNDEFINED []⟩⟩)]⟩
        ⟨[], [], [sampleObject]⟩ ⟨[]⟩ =
      Except.ok
        (⟨[], [],
          [{ sampleObject with friction := 7 / 10, restitution := 1 / 10 }]⟩,
         ⟨[{ sampleObject with friction := 7 / 10, restitution := 1 / 10 }]⟩,
         true) ∧
    (⟨[{ sampleObject with friction := 7 / 10, restitution := 1 / 10 }]⟩ :
        BulletWorld).collisionObjects =
      (⟨[]⟩ : BulletWorld).collisionObjects ++
        (⟨[], [],
          [{ sampleObject with friction := 7 / 10, restitution := 1 / 10 }]⟩ :
          BulletRigidSceneState).bStaticCollisionObjects_ :=
  ⟨rfl,
    one_collision_shape_per_defined_mesh_node.2.2 ⟨"a", 7 / 10, 1 / 10⟩
      ⟨[("a", [sampleMesh])], [("a", ⟨⟨.mk Mat4.identityM ID_UNDEFINED []⟩⟩)]⟩
      ⟨[], [], [sampleObject]⟩ ⟨[]⟩
      (⟨[], [],
        [{ sampleObject with friction := 7 / 10, restitution := 1 / 10 }]⟩,
       ⟨[{ sampleObject with friction := 7 / 10, restitution := 1 / 10 }]⟩,
       true) rfl⟩

/-- C8: the collision shape is built on an indexed-triangle-array whose
triangle count is the index count divided by 3, whose index stride is 3
32-bit unsigned indices (12 bytes), whose vertex count is the position
count, whose vertex stride is one 3-component 32-bit-float vector (12
bytes), with integer index type and float vertex type. -/
theorem bulletMesh_indexed_triangle_array_configuration :
    ∀ (P tl : Mat4) (mg : List CollisionMeshData) (mid : Int)
      (st : BulletRigidSceneState),
      mid ≠ ID_UNDEFINED →
      (constructBulletSceneFromMeshes P mg (.mk tl mid []) st).bSceneArrays_ =
        st.bSceneArrays_ ++
          [⟨[{ m_numTriangles := (mg.getD mid.toNat default).indices.length / 3
               m_triangleIndexBase := (mg.getD mid.toNat default).indices
               m_triangleIndexStride := 3 * 4
               m_numVertices := (mg.getD mid.toNat default).positions.length
               m_vertexBase := (mg.getD mid.toNat default).positions
               m_vertexStride := 12
               m_indexType := PHYScalarType.PHY_INTEGER
               m_vertexType := PHYScalarType.PHY_FLOAT }]⟩] := by
  intro P tl mg mid st hm
  rw [constructBulletSceneFromMeshes_eq]
  simp [collisionObjectsSpec, collisionObjectsSpecList, hm, mkCollisionObject,
    mkMeshShape, mkIndexedVertexArray, mkBulletMesh]

/-- Witness for C8 at a concrete mesh with 3 indices and 3 vertices. -/
theorem bulletMesh_indexed_triangle_array_configuration_witness :
    ((0 : Int) ≠ ID_UNDEFINED) ∧
      (constructBulletSceneFromMeshes Mat4.identityM [sampleMesh]
          (.mk Mat4.identityM 0 [])
          BulletRigidSceneState.empty).bSceneArrays_ =
        BulletRigidSceneState.empty.bSceneArrays_ ++
          [⟨[{ m_numTriangles :=
                 ([sampleMesh].getD (0 : Int).toNat default).indices.length / 3
               m_triangleIndexBase :=
                 ([sampleMesh].getD (0 : Int).toNat default).indices
               m_triangleIndexStride := 3 * 4
               m_numVertices :=
                 ([sampleMesh].getD (0 : Int).toNat default).positions.length
               m_vertexBase :=
                 ([sampleMesh].getD (0 : Int).toNat default).positions
               m_vertexStride := 12
               m_indexType := PHYScalarType.PHY_INTEGER
               m_vertexType := PHYScalarType.PHY_FLOAT }]⟩] :=
  ⟨by decide,
    bulletMesh_indexed_triangle_array_configuration Mat4.identityM
      Mat4.identityM [sampleMesh] 0 BulletRigidSceneState.empty (by decide)⟩

/-- C9: on an asset with zero collision components the AABB accessor returns
the default-constructed (empty) bounding range without failing. -/
theorem getCollisionShapeAabb_empty_components :
    ∀ aabbQuery : btCollisionObject → Range3D,
      getCollisionShapeAabb aabbQuery [] = Range3D.defaultRange :=
  fun _ => rfl

/-- C10: initialization_LibSpecific reports success through its boolean
result on every run that returns (including assets contributing zero
collision objects): the returned flag is always true. -/
theorem initialization_LibSpecific_returns_true :
    ∀ (attrs : InitializationAttributes) (rm : ResourceManager)
      (st : BulletRigidSceneState) (w : BulletWorld)
      (out : BulletRigidSceneState × BulletWorld × Bool),
      initialization_LibSpecific attrs rm st w = Except.ok out →
      out.2.2 = true :=
  fun _ _ _ _ _ h => (initialization_LibSpecific_ok h).1

/-- Witness for C10: a successful run on an asset whose hierarchy contributes
zero collision objects still returns true. -/
theorem initialization_LibSpecific_returns_true_witness :
    initialization_LibSpecific ⟨"b", 0, 0⟩
        ⟨[("b", [])], [("b", ⟨⟨.mk Mat4.identityM ID_UNDEFINED []⟩⟩)]⟩
        BulletRigidSceneState.empty ⟨[]⟩ =
      Except.ok (BulletRigidSceneState.empty, ⟨[]⟩, true) ∧
    (BulletRigidSceneState.empty, (⟨[]⟩ : BulletWorld), true).2.2 = true :=
  ⟨rfl,
    initialization_LibSpecific_returns_true ⟨"b", 0, 0⟩
      ⟨[("b", [])], [("b", ⟨⟨.mk Mat4.identityM ID_UNDEFINED []⟩⟩)]⟩
      BulletRigidSceneState.empty ⟨[]⟩
      (BulletRigidSceneState.empty, ⟨[]⟩, true) rfl⟩

/-- Erasing objects from the world never increases any object's
registration count. -/
theorem bulletRigidSceneDestructor_count_le (objs : List btCollisionObject)
    (w : BulletWorld) (o : btCollisionObject) :
    (bulletRigidSceneDestructor objs w).collisionObjects.count o ≤
      w.collisionObjects.count o := by
  induction objs generalizing w with
  | nil => exact Nat.le_refl _
  | cons x xs ih =>
    calc (bulletRigidSceneDestructor xs
            (w.removeCollisionObject x)).collisionObjects.count o ≤
          (w.removeCollisionObject x).collisionObjects.count o := ih _
      _ ≤ w.collisionObjects.count o := by
          simp only [BulletWorld.removeCollisionObject, List.count_erase]
          exact Nat.sub_le _ _

/-- C7: the destructor removes every collision object that was created for
the asset from the physics world: provided the world holds each of the
scene's objects at most once (as initialization guarantees), none of them
remains registered afterwards. -/
theorem destructor_unregisters_every_object :
    ∀ (objs : List btCollisionObject) (w : BulletWorld),
      (∀ o ∈ objs, w.collisionObjects.count o ≤ 1) →
      ∀ o ∈ objs, o ∉ (bulletRigidSceneDestructor objs w).collisionObjects := by
  intro objs
  induction objs with
  | nil => intro w _ o ho; exact absurd ho (List.not_mem_nil o)
  | cons x xs ih =>
    intro w hcount o ho
    rcases List.mem_cons.mp ho with rfl | hoxs
    · have h1 : (w.removeCollisionObject o).collisionObjects.count o ≤ 0 := by
        simp only [BulletWorld.removeCollisionObject, List.count_erase]
        have hx := hcount o (List.mem_cons_self o xs)
        simp only [beq_self_eq_true, if_pos]
        omega
      have h2 := bulletRigidSceneDestructor_count_le xs
        (w.removeCollisionObject o) o
      intro hmem
      have h3 := List.count_pos_iff.mpr hmem
      have h4 : bulletRigidSceneDestructor (o :: xs) w =
          bulletRigidSceneDestructor xs (w.removeCollisionObject o) := rfl
      rw [h4] at h3
      omega
    · have h5 : bulletRigidSceneDestructor (x :: xs) w =
          bulletRigidSceneDestructor xs (w.removeCollisionObject x) := rfl
      rw [h5]
      refine ih (w.removeCollisionObject x) (fun o' ho' => ?_) o hoxs
      calc (w.removeCollisionObject x).collisionObjects.count o' ≤
            w.collisionObjects.count o' := by
            simp only [BulletWorld.removeCollisionObject, List.count_erase]
            exact Nat.sub_le _ _
        _ ≤ 1 := hcount o' (List.mem_cons_of_mem x ho')

/-- Witness for C7: a world holding exactly the scene's one object; after the
destructor runs the object is no longer registered. -/
theorem destructor_unregisters_every_object_witness :
    (⟨[sampleObject]⟩ : BulletWorld).collisionObjects.count sampleObject ≤ 1 ∧
    sampleObject ∉
      (bulletRigidSceneDestructor [sampleObject]
        ⟨[sampleObject]⟩).collisionObjects :=
  ⟨by decide,
    destructor_unregisters_every_object [sampleObject] ⟨[sampleObject]⟩
      (by decide) sampleObject (by decide)⟩

/-- C4: setting the friction (resp. restitution) coefficient writes it to
every collision component; after a set, the getter returns the coefficient
(when components exist); the getter reads the last-registered component; and
on zero components both getters return the defined default 0. -/
theorem uniform_friction_restitution :
    ∀ (objs : List btCollisionObject) (f : ℚ),
      (∀ o ∈ setFrictionCoefficient f objs, o.friction = f) ∧
      (objs ≠ [] →
        getFrictionCoefficient (setFrictionCoefficient f objs) = f) ∧
      (∀ o, objs.getLast? = some o →
        getFrictionCoefficient objs = o.friction) ∧
      getFrictionCoefficient [] = 0 ∧
      (∀ o ∈ setRestitutionCoefficient f objs, o.restitution = f) ∧
      (objs ≠ [] →
        getRestitutionCoefficient (setRestitutionCoefficient f objs) = f) ∧
      (∀ o, objs.getLast? = some o →
        getRestitutionCoefficient objs = o.restitution) ∧
      getRestitutionCoefficient [] = 0 := by
  intro objs f
  refine ⟨fun o ho => ?_, fun hne => ?_, fun o h => ?_, rfl,
    fun o ho => ?_, fun hne => ?_, fun o h => ?_, rfl⟩
  · rcases List.mem_map.mp ho with ⟨o', _, rfl⟩; rfl
  · have hlz : ¬ objs.length = 0 := fun hl => hne (List.length_eq_zero.mp hl)
    simp only [getFrictionCoefficient, setFrictionCoefficient,
      List.length_map, if_neg hlz, List.getLast?_map]
    cases h : objs.getLast? with
    | none => exact absurd (List.getLast?_eq_none_iff.mp h) hne
    | some o => rfl
  · have hne : objs ≠ [] := by
      intro h0; rw [h0] at h; exact Option.noConfusion h
    have hlz : ¬ objs.length = 0 := fun hl => hne (List.length_eq_zero.mp hl)
    simp only [getFrictionCoefficient, if_neg hlz, h]
  · rcases List.mem_map.mp ho with ⟨o', _, rfl⟩; rfl
  · have hlz : ¬ objs.length = 0 := fun hl => hne (List.length_eq_zero.mp hl)
    simp only [getRestitutionCoefficient, setRestitutionCoefficient,
      List.length_map, if_neg hlz, List.getLast?_map]
    cases h : objs.getLast? with
    | none => exact absurd (List.getLast?_eq_none_iff.mp h) hne
    | some o => rfl
  · have hne : objs ≠ [] := by
      intro h0; rw [h0] at h; exact Option.noConfusion h
    have hlz : ¬ objs.length = 0 := fun hl => hne (List.length_eq_zero.mp hl)
    simp only [getRestitutionCoefficient, if_neg hlz, h]

/-- Witness for C4: four components, coefficient 0.7; every component reports
0.7, the getters return 0.7, and the zero-component getters return 0. -/
theorem uniform_friction_restitution_witness :
    ([sampleObject, sampleObject, sampleObject, sampleObject] :
        List btCollisionObject) ≠ [] ∧
    { sampleObject with friction := 7 / 10 } ∈
      setFrictionCoefficient (7 / 10)
        [sampleObject, sampleObject, sampleObject, sampleObject] ∧
    ({ sampleObject with friction := 7 / 10 } : btCollisionObject).friction =
      7 / 10 ∧
    getFrictionCoefficient (setFrictionCoefficient (7 / 10)
      [sampleObject, sampleObject, sampleObject, sampleObject]) = 7 / 10 ∧
    getRestitutionCoefficient (setRestitutionCoefficient (7 / 10)
      [sampleObject, sampleObject, sampleObject, sampleObject]) = 7 / 10 ∧
    getFrictionCoefficient [] = 0 ∧
    getRestitutionCoefficient [] = 0 :=
  ⟨by decide,
    List.mem_map_of_mem (fun o => { o with friction := 7 / 10 })
      (List.mem_cons_self sampleObject _),
    (uniform_friction_restitution
      [sampleObject, sampleObject, sampleObject, sampleObject] (7 / 10)).1
      { sampleObject with friction := 7 / 10 }
      (List.mem_map_of_mem (fun o => { o with friction := 7 / 10 })
        (List.mem_cons_self sampleObject _)),
    (uniform_friction_restitution
      [sampleObject, sampleObject, sampleObject, sampleObject] (7 / 10)).2.1
      (by decide),
    (uniform_friction_restitution
      [sampleObject, sampleObject, sampleObject, sampleObject]
      (7 / 10)).2.2.2.2.2.1 (by decide),
    (uniform_friction_restitution
      [sampleObject, sampleObject, sampleObject, sampleObject]
      (7 / 10)).2.2.2.1,
    (uniform_friction_restitution
      [sampleObject, sampleObject, sampleObject, sampleObject]
      (7 / 10)).2.2.2.2.2.2.2⟩

/-- C6: getCollisionMesh and getMeshMetaData abort (fatal CHECK failure) for
every key not present in their cache, and return the stored entry for every
key that is present. -/
theorem cachedResource_lookups_check_presence :
    ∀ (rm : ResourceManager) (k : String),
      (rm.collisionMeshGroups_.lookup k = none →
        getCollisionMesh rm k = Except.error FatalCheck.checkFailed) ∧
      (∀ v, rm.collisionMeshGroups_.lookup k = some v →
        getCollisionMesh rm k = Except.ok v) ∧
      (rm.resourceDict_.lookup k = none →
        getMeshMetaData rm k = Except.error FatalCheck.checkFailed) ∧
      (∀ v, rm.resourceDict_.lookup k = some v →
        getMeshMetaData rm k = Except.ok v.meshMetaData) := by
  intro rm k
  refine ⟨fun h => ?_, fun v h => ?_, fun h => ?_, fun v h => ?_⟩ <;>
    simp [getCollisionMesh, getMeshMetaData, h]

/-- Witness for C6: a one-entry cache; the present key "a" returns its stored
entry, the absent key "zz" aborts. -/
theorem cachedResource_lookups_check_presence_witness :
    (⟨[("a", [sampleMesh])],
        [("a", ⟨⟨.mk Mat4.identityM ID_UNDEFINED []⟩⟩)]⟩ :
        ResourceManager).collisionMeshGroups_.lookup "a" =
      some [sampleMesh] ∧
    getCollisionMesh
        ⟨[("a", [sampleMesh])],
          [("a", ⟨⟨.mk Mat4.identityM ID_UNDEFINED []⟩⟩)]⟩ "a" =
      Except.ok [sampleMesh] ∧
    (⟨[("a", [sampleMesh])],
        [("a", ⟨⟨.mk Mat4.identityM ID_UNDEFINED []⟩⟩)]⟩ :
        ResourceManager).collisionMeshGroups_.lookup "zz" = none ∧
    getCollisionMesh
        ⟨[("a", [sampleMesh])],
          [("a", ⟨⟨.mk Mat4.identityM ID_UNDEFINED []⟩⟩)]⟩ "zz" =
      Except.error FatalCheck.checkFailed :=
  ⟨rfl,
    (cachedResource_lookups_check_presence
      ⟨[("a", [sampleMesh])], [("a", ⟨⟨.mk Mat4.identityM ID_UNDEFINED []⟩⟩)]⟩
      "a").2.1 [sampleMesh] rfl,
    rfl,
    (cachedResource_lookups_check_presence
      ⟨[("a", [sampleMesh])], [("a", ⟨⟨.mk Mat4.identityM ID_UNDEFINED []⟩⟩)]⟩
      "zz").1 rfl⟩

/-- A range is well formed when its min corner is componentwise at most its
max corner (every real AABB reported by a shape query is of this form). -/
def Range3D.wellFormed (r : Range3D) : Prop :=
  r.minC.x ≤ r.maxC.x ∧ r.minC.y ≤ r.maxC.y ∧ r.minC.z ≤ r.maxC.z

instance (r : Range3D) : Decidable r.wellFormed :=
  inferInstanceAs (Decidable (_ ∧ _ ∧ _))

/-- A strict separation from the default-constructed range that is preserved
by joins: some min coordinate is negative or some max coordinate is
positive. -/
def Range3D.nonzeroWitness (r : Range3D) : Prop :=
  r.minC.x < 0 ∨ 0 < r.maxC.x ∨ r.minC.y < 0 ∨ 0 < r.maxC.y ∨
    r.minC.z < 0 ∨ 0 < r.maxC.z

/-- A well-formed range different from the default-constructed one has a
negative min coordinate or a positive max coordinate. -/
theorem Range3D.nonzeroWitness_of_wf_ne (r : Range3D) (hwf : r.wellFormed)
    (hne0 : r ≠ Range3D.defaultRange) : r.nonzeroWitness := by
  obtain ⟨⟨a, b, c⟩, ⟨d, e, f⟩⟩ := r
  obtain ⟨h1, h2, h3⟩ := hwf
  by_contra hnw
  rw [Range3D.nonzeroWitness] at hnw
  push_neg at hnw
  obtain ⟨hna, hnd, hnb, hnee, hnc, hnf⟩ := hnw
  have ha : a = 0 := le_antisymm (h1.trans hnd) hna
  have hd : d = 0 := le_antisymm hnd (hna.trans h1)
  have hb : b = 0 := le_antisymm (h2.trans hnee) hnb
  have hee : e = 0 := le_antisymm hnee (hnb.trans h2)
  have hc : c = 0 := le_antisymm (h3.trans hnf) hnc
  have hf : f = 0 := le_antisymm hnf (hnc.trans h3)
  exact hne0 (by rw [ha, hb, hc, hd, hee, hf]; rfl)

/-- Joining preserves the nonzero witness of the left range. -/
theorem Range3D.nonzeroWitness_join (a b : Range3D) (h : a.nonzeroWitness) :
    (a.join b).nonzeroWitness := by
  obtain ⟨⟨ax, ay, az⟩, ⟨dx, dy, dz⟩⟩ := a
  obtain ⟨⟨bx, b1, bz⟩, ⟨ex, ey, ez⟩⟩ := b
  simp only [Range3D.nonzeroWitness, Range3D.join, Vec3.minV, Vec3.maxV] at h ⊢
  rcases h with h | h | h | h | h | h
  · exact Or.inl (lt_of_le_of_lt (min_le_left _ _) h)
  · exact Or.inr (Or.inl (lt_of_lt_of_le h (le_max_left _ _)))
  · exact Or.inr (Or.inr (Or.inl (lt_of_le_of_lt (min_le_left _ _) h)))
  · exact Or.inr (Or.inr (Or.inr (Or.inl (lt_of_lt_of_le h (le_max_left _ _)))))
  · exact Or.inr (Or.inr (Or.inr (Or.inr (Or.inl
      (lt_of_le_of_lt (min_le_left _ _) h)))))
  · exact Or.inr (Or.inr (Or.inr (Or.inr (Or.inr
      (lt_of_lt_of_le h (le_max_left _ _))))))

/-- A range with a nonzero witness is not the default-constructed range. -/
theorem Range3D.ne_default_of_nonzeroWitness (a : Range3D)
    (h : a.nonzeroWitness) : a ≠ Range3D.defaultRange := by
  intro he
  rw [he] at h
  simp only [Range3D.nonzeroWitness, Range3D.defaultRange] at h
  rcases h with h | h | h | h | h | h <;> exact absurd h (lt_irrefl 0)

/-- Once the running range carries a nonzero witness, the override branch of
the AABB fold is never taken again, so the fold is a plain join fold. -/
theorem aabb_foldl_join_of_nonzeroWitness
    (aabbQuery : btCollisionObject → Range3D) (l : List btCollisionObject)
    (acc : Range3D) (h : acc.nonzeroWitness) :
    l.foldl
      (fun combinedAABB o =>
        let box := aabbQuery o
        if combinedAABB = Range3D.defaultRange then box
        else combinedAABB.join box)
      acc = (l.map aabbQuery).foldl Range3D.join acc := by
  induction l generalizing acc with
  | nil => rfl
  | cons o os ih =>
    simp only [List.foldl_cons, List.map_cons]
    rw [if_neg (Range3D.ne_default_of_nonzeroWitness acc h)]
    exact ih _ (Range3D.nonzeroWitness_join acc (aabbQuery o) h)

/-- C2: the AABB accessor returns the union of all components' world-space
boxes: the running union starts as the default-constructed range, the first
real (well-formed, non-default) box replaces it rather than being merged
with it, and each further box is joined, so the result is the join fold of
every component's box starting from the first one. -/
theorem getCollisionShapeAabb_is_union :
    ∀ (aabbQuery : btCollisionObject → Range3D) (o0 : btCollisionObject)
      (rest : List btCollisionObject),
      (aabbQuery o0).wellFormed →
      aabbQuery o0 ≠ Range3D.defaultRange →
      getCollisionShapeAabb aabbQuery (o0 :: rest) =
        (rest.map aabbQuery).foldl Range3D.join (aabbQuery o0) := by
  intro aabbQuery o0 rest hwf hne0
  rw [getCollisionShapeAabb]
  simp only [List.foldl_cons, if_pos rfl]
  exact aabb_foldl_join_of_nonzeroWitness aabbQuery rest (aabbQuery o0)
    (Range3D.nonzeroWitness_of_wf_ne _ hwf hne0)

/-- Lookup-style AABB oracle for the three-cube witness: unit cubes at
(0,0,0), (10,0,0) and (0,10,0), keyed by the object's world placement. -/
def cubeAabbQuery (o : btCollisionObject) : Range3D :=
  if o.worldTransform.origin = ⟨10, 0, 0⟩ then ⟨⟨10, 0, 0⟩, ⟨11, 1, 1⟩⟩
  else if o.worldTransform.origin = ⟨0, 10, 0⟩ then ⟨⟨0, 10, 0⟩, ⟨1, 11, 1⟩⟩
  else ⟨⟨0, 0, 0⟩, ⟨1, 1, 1⟩⟩

/-- Witness for C2: three disjoint unit cubes at (0,0,0), (10,0,0) and
(0,10,0); the combined bound is the union of all three, the box spanning
(0,0,0) to (11,11,1). -/
theorem getCollisionShapeAabb_is_union_witness :
    (cubeAabbQuery sampleObject).wellFormed ∧
    cubeAabbQuery sampleObject ≠ Range3D.defaultRange ∧
    getCollisionShapeAabb cubeAabbQuery
        [sampleObject,
         { sampleObject with worldTransform := ⟨Mat3.identityM, ⟨10, 0, 0⟩⟩ },
         { sampleObject with worldTransform := ⟨Mat3.identityM, ⟨0, 10, 0⟩⟩ }] =
      ([{ sampleObject with worldTransform := ⟨Mat3.identityM, ⟨10, 0, 0⟩⟩ },
        { sampleObject with worldTransform := ⟨Mat3.identityM, ⟨0, 10, 0⟩⟩ }].map
          cubeAabbQuery).foldl Range3D.join (cubeAabbQuery sampleObject) ∧
    getCollisionShapeAabb cubeAabbQuery
        [sampleObject,
         { sampleObject with worldTransform := ⟨Mat3.identityM, ⟨10, 0, 0⟩⟩ },
         { sampleObject with worldTransform := ⟨Mat3.identityM, ⟨0, 10, 0⟩⟩ }] =
      ⟨⟨0, 0, 0⟩, ⟨11, 11, 1⟩⟩ :=
  ⟨by decide, by decide,
    getCollisionShapeAabb_is_union cubeAabbQuery sampleObject
      [{ sampleObject with worldTransform := ⟨Mat3.identityM, ⟨10, 0, 0⟩⟩ },
       { sampleObject with worldTransform := ⟨Mat3.identityM, ⟨0, 10, 0⟩⟩ }]
      (by decide) (by decide),
    by decide⟩

/-- Squared length scales with the square of a scalar multiple. -/
theorem Vec3.len2_smul (s : ℚ) (v : Vec3) :
    (Vec3.smul s v).len2 = s * s * v.len2 := by
  obtain ⟨x, y, z⟩ := v
  simp only [Vec3.smul, Vec3.len2]
  ring

/-- Length of a nonnegative scalar multiple of a unit-squared-length
vector. -/
theorem Vec3.length_smul_unit (s : ℚ) (v : Vec3) (hv : v.len2 = 1)
    (hs : 0 ≤ s) : (Vec3.smul s v).length = s := by
  rw [Vec3.length, Vec3.len2_smul, hv, mul_one, Rat.sqrt_eq, abs_of_nonneg hs]

/-- Dividing out a nonzero scalar multiple recovers the vector. -/
theorem Vec3.smul_one_div_smul (s : ℚ) (v : Vec3) (hs : s ≠ 0) :
    Vec3.smul (1 / s) (Vec3.smul s v) = v := by
  obtain ⟨x, y, z⟩ := v
  simp only [Vec3.smul, one_div, Vec3.mk.injEq]
  exact ⟨inv_mul_cancel_left₀ hs x, inv_mul_cancel_left₀ hs y,
    inv_mul_cancel_left₀ hs z⟩

/-- C3: for a node whose accumulated world transform is composed of a
rotation R (unit-squared-length columns), positive per-axis scales and a
translation t, the created shape's local scaling is exactly the scale vector
and the collision object's world placement is exactly (R, t): the scale is
excluded from the placement and appears only in the shape. -/
theorem scale_excluded_from_world_placement :
    ∀ (R : Mat3) (sx sy sz : ℚ) (t : Vec3) (mg : List CollisionMeshData)
      (mid : Int),
      R.c0.len2 = 1 → R.c1.len2 = 1 → R.c2.len2 = 1 →
      0 < sx → 0 < sy → 0 < sz → mid ≠ ID_UNDEFINED →
      ((constructBulletSceneFromMeshes Mat4.identityM mg
          (.mk ⟨⟨Vec3.smul sx R.c0, Vec3.smul sy R.c1, Vec3.smul sz R.c2⟩, t⟩
            mid [])
          BulletRigidSceneState.empty).bStaticCollisionObjects_.map
          fun o => (o.collisionShape.localScaling, o.worldTransform)) =
        [(⟨sx, sy, sz⟩, ⟨R, t⟩)] := by
  intro R sx sy sz t mg mid h0 h1 h2 hx hy hz hm
  obtain ⟨r0, r1, r2⟩ := R
  rw [constructBulletSceneFromMeshes_eq]
  have hsc : (Mat4.mk ⟨Vec3.smul sx r0, Vec3.smul sy r1, Vec3.smul sz r2⟩
      t).scaling = ⟨sx, sy, sz⟩ := by
    rw [Mat4.scaling]
    rw [show (Mat4.mk ⟨Vec3.smul sx r0, Vec3.smul sy r1, Vec3.smul sz r2⟩
      t).linear = ⟨Vec3.smul sx r0, Vec3.smul sy r1, Vec3.smul sz r2⟩ from rfl]
    rw [Vec3.length_smul_unit sx r0 h0 hx.le,
      Vec3.length_smul_unit sy r1 h1 hy.le,
      Vec3.length_smul_unit sz r2 h2 hz.le]
  have hrot : (Mat4.mk ⟨Vec3.smul sx r0, Vec3.smul sy r1, Vec3.smul sz r2⟩
      t).rotation = ⟨r0, r1, r2⟩ := by
    rw [Mat4.rotation]
    rw [show (Mat4.mk ⟨Vec3.smul sx r0, Vec3.smul sy r1, Vec3.smul sz r2⟩
      t).linear = ⟨Vec3.smul sx r0, Vec3.smul sy r1, Vec3.smul sz r2⟩ from rfl]
    rw [Vec3.length_smul_unit sx r0 h0 hx.le,
      Vec3.length_smul_unit sy r1 h1 hy.le,
      Vec3.length_smul_unit sz r2 h2 hz.le,
      Vec3.smul_one_div_smul sx r0 (ne_of_gt hx),
      Vec3.smul_one_div_smul sy r1 (ne_of_gt hy),
      Vec3.smul_one_div_smul sz r2 (ne_of_gt hz)]
  simp [collisionObjectsSpec, collisionObjectsSpecList, hm, mkCollisionObject,
    mkMeshShape, Mat4.identity_mul, BulletRigidSceneState.empty, hsc, hrot,
    Mat4.translation]

/-- Witness for C3 at the rotation with columns (0,1,0), (-1,0,0), (0,0,1),
scales (2,3,4) and translation (5,6,7). -/
theorem scale_excluded_from_world_placement_witness :
    (Mat3.mk ⟨0, 1, 0⟩ ⟨-1, 0, 0⟩ ⟨0, 0, 1⟩).c0.len2 = 1 ∧
    (0 : ℚ) < 2 ∧ ((0 : Int) ≠ ID_UNDEFINED) ∧
    ((constructBulletSceneFromMeshes Mat4.identityM [sampleMesh]
        (.mk
          ⟨⟨Vec3.smul 2 (Mat3.mk ⟨0, 1, 0⟩ ⟨-1, 0, 0⟩ ⟨0, 0, 1⟩).c0,
            Vec3.smul 3 (Mat3.mk ⟨0, 1, 0⟩ ⟨-1, 0, 0⟩ ⟨0, 0, 1⟩).c1,
            Vec3.smul 4 (Mat3.mk ⟨0, 1, 0⟩ ⟨-1, 0, 0⟩ ⟨0, 0, 1⟩).c2⟩,
           ⟨5, 6, 7⟩⟩
          0 [])
        BulletRigidSceneState.empty).bStaticCollisionObjects_.map
        fun o => (o.collisionShape.localScaling, o.worldTransform)) =
      [(⟨2, 3, 4⟩, ⟨Mat3.mk ⟨0, 1, 0⟩ ⟨-1, 0, 0⟩ ⟨0, 0, 1⟩, ⟨5, 6, 7⟩⟩)] :=
  ⟨by norm_num [Vec3.len2], by norm_num, by decide,
    scale_excluded_from_world_placement
      (Mat3.mk ⟨0, 1, 0⟩ ⟨-1, 0, 0⟩ ⟨0, 0, 1⟩) 2 3 4 ⟨5, 6, 7⟩ [sampleMesh] 0
      (by norm_num [Vec3.len2]) (by norm_num [Vec3.len2])
      (by norm_num [Vec3.len2]) (by norm_num) (by norm_num) (by norm_num)
      (by decide)⟩

end HabitatSim
